import Mathlib

/-!
Verification of the style-guide automation core (rule engine, validator,
corrector) against its natural-language specification.

The Python source is shallowly embedded:
* Python dictionaries with optional keys become Lean structures whose fields
  are `Option`-typed (`none` = key absent), mirroring `dict.get` semantics.
* `python-docx` objects (paragraphs, runs, tables) become plain records; a
  paragraph's `text` is the concatenation of its runs' texts, as in the
  library.  Lengths in centimeters and font sizes in points are rationals
  (`ℚ`); the EMU quantization performed by `Pt(...)` is modelled exactly
  (truncating multiplication by 12700), while binary floating point
  representation issues are abstracted away — no claim depends on them.
* Python list indexing (including negative-index wrap-around and
  `IndexError`) is modelled by `pythonResolve` / `pythonGet`.
* Exceptions become `Option`/`Except` results; a caught exception
  corresponds to the truncated emission the handler produces.
* The validator appends violations through `_add_violation`, which threads a
  counter; since no scanning decision ever reads the counter, each rule's
  scan is modelled as the ordered list of violation payloads it appends
  (`ruleEmit`), and `validateDocument` folds `addViolationData` over them —
  extensionally the same state threading as the source.
* Human-readable messages are reproduced structurally (key diff lists); the
  exact numeric formatting (`round(x, 2)`, `f"{x:.2f}"`, quoting) of the
  Python f-strings is abbreviated, as no property depends on message text.
-/

namespace StyleGuide

/-- JSON-ish scalar values as they appear in the validator's
`expected`/`actual` dictionaries. -/
inductive Val where
  | str (s : String)
  | bool (b : Bool)
  | num (q : ℚ)
  | null
  deriving DecidableEq

/-- Rendering of a `Val` for violation messages (Python `str(...)`). -/
def valToString : Val → String
  | .str s => s
  | .bool b => if b then "True" else "False"
  | .num q => toString q
  | .null => "None"

/-- `python-docx` run font: `name`, `size` (points), `bold`, `italic` are all
tri-state (`None` = inherit). -/
structure Font where
  name : Option String := none
  size : Option ℚ := none
  bold : Option Bool := none
  italic : Option Bool := none
  deriving DecidableEq

/-- A run: a span of text with one font. -/
structure Run where
  text : String := ""
  font : Font := {}
  deriving DecidableEq

/-- A paragraph: alignment is the `WD_ALIGN_PARAGRAPH` enum value
(0 = LEFT, 1 = CENTER, 2 = RIGHT, 3 = JUSTIFY) or `None`. -/
structure Paragraph where
  alignment : Option Nat := none
  runs : List Run := []
  deriving DecidableEq

/-- `paragraph.text` in python-docx is the concatenation of its runs. -/
def Paragraph.text (p : Paragraph) : String :=
  String.join (p.runs.map Run.text)

/-- A table cell holds paragraphs. -/
structure Cell where
  paragraphs : List Paragraph := []
  deriving DecidableEq

/-- A table row: height in centimeters (`None` = unset). -/
structure TableRow where
  height : Option ℚ := none
  cells : List Cell := []
  deriving DecidableEq

/-- A table column: width in centimeters (`None` = unset). -/
structure TableColumn where
  width : Option ℚ := none
  deriving DecidableEq

/-- A table. -/
structure Table where
  rows : List TableRow := []
  columns : List TableColumn := []
  deriving DecidableEq

/-- The in-memory document: ordered paragraphs and tables. -/
structure Doc where
  paragraphs : List Paragraph := []
  tables : List Table := []
  deriving DecidableEq

/-- Resolve a Python list index: nonnegative indices must be `< len`;
negative indices wrap (`l[-k]` is `l[len-k]`); otherwise `IndexError`
(modelled as `none`). -/
def pythonResolve (len : Nat) (i : Int) : Option Nat :=
  if 0 ≤ i then (if i.toNat < len then some i.toNat else none)
  else (if i.natAbs ≤ len then some (len - i.natAbs) else none)

/-- Python `l[i]` with wrap-around; `none` models `IndexError`. -/
def pythonGet {α : Type} (l : List α) (i : Int) : Option α :=
  match pythonResolve l.length i with
  | some k => l.get? k
  | none => none

/-- Python `str.lower()` (per-character, ASCII — `String.toLower` does the
same but its iterator-based implementation does not reduce in the kernel,
so the character-list form is used). -/
def strLower (s : String) : String :=
  String.mk (s.data.map Char.toLower)

/-- The value of a rule's `location.row_from_top` key: an integer or a
string (single index, `"a-b"` range or `"all"`). -/
inductive RowSpec where
  | int (n : Int)
  | str (s : String)
  deriving DecidableEq

/-- A rule's `location` dictionary (only `row_from_top` is ever read). -/
structure LocationMap where
  row_from_top : Option RowSpec := none
  deriving DecidableEq

/-- A rule's `validation` dictionary; `none` = key absent. -/
structure ValidationMap where
  alignment : Option String := none
  bold : Option Bool := none
  font_name : Option String := none
  font_size : Option ℚ := none
  is_blank : Option Bool := none
  row_height : Option ℚ := none
  column_width : Option ℚ := none
  deriving DecidableEq

/-- Replace only the `is_blank` key of a validation map (used to state
that the validator ignores that key). -/
def withIsBlank (v : ValidationMap) (b : Option Bool) : ValidationMap :=
  { v with is_blank := b }

/-- A `correction_action.properties` dictionary. -/
structure CorrectionProps where
  alignment : Option String := none
  font_name : Option String := none
  font_size : Option ℚ := none
  bold : Option Bool := none
  deriving DecidableEq

/-- A rule's `correction_action` dictionary. -/
structure CorrectionAction where
  type : Option String := none
  properties : CorrectionProps := {}
  deriving DecidableEq

/-- A rule dictionary; every field is optional, mirroring `rule.get(...)`. -/
structure Rule where
  rule_id : Option String := none
  category : Option String := none
  severity : Option String := none
  priority : Option Int := none
  enabled : Option Bool := none
  description : Option String := none
  location : Option LocationMap := none
  validation : Option ValidationMap := none
  correction_action : Option CorrectionAction := none
  deriving DecidableEq

/-- A parsed rule source file: top-level keys `version` and `rules`
(`metadata`/`categories` are never consulted by the core paths and are
omitted). -/
structure RuleSource where
  version : Option String := none
  rules : Option (List Rule) := none
  deriving DecidableEq

/-- The `RuleEngine`'s mutable state: the raw loaded source, the category
index, and the cache timestamp (seconds, abstract clock). -/
structure RuleEngineState where
  rules : RuleSource := {}
  rules_by_category : List (String × List Rule) := []
  cache_timestamp : Option Nat := none
  deriving DecidableEq

/-- `RuleEngine._validate_rules_structure`: the source must have `version`
and `rules`, and every rule must have `rule_id`, `category`, `validation`
and `correction_action`. -/
def validateRulesStructure (src : RuleSource) : Bool :=
  src.version.isSome && src.rules.isSome &&
    (src.rules.getD []).all fun r =>
      r.rule_id.isSome && r.category.isSome && r.validation.isSome &&
        r.correction_action.isSome

/-- Append a rule to its category bucket, inserting the bucket at the end on
first use (Python dict insertion order). -/
def addToCategory (m : List (String × List Rule)) (cat : String) (r : Rule) :
    List (String × List Rule) :=
  match m with
  | [] => [(cat, [r])]
  | (c, rs) :: rest =>
      if c = cat then (c, rs ++ [r]) :: rest
      else (c, rs) :: addToCategory rest cat r

/-- `RuleEngine._organize_rules_by_category`. -/
def organizeRulesByCategory (src : RuleSource) : List (String × List Rule) :=
  (src.rules.getD []).foldl
    (fun m r => addToCategory m (r.category.getD "unknown") r) []

/-- `RuleEngine.load_rules` on an already-parsed source (the file exists and
is valid JSON; the earlier-return branches for a missing file or a JSON
decode error leave the state untouched and are outside this model).  Note
the source: `self.rules = json.load(f)` executes *before*
`_validate_rules_structure`, so on a structure failure the raw rules have
already been replaced while the category index and timestamp have not. -/
def loadRules (now : Nat) (st : RuleEngineState) (src : RuleSource) :
    Bool × RuleEngineState :=
  let st1 : RuleEngineState := { st with rules := src }
  if validateRulesStructure src then
    (true, { st1 with rules_by_category := organizeRulesByCategory src,
                      cache_timestamp := some now })
  else
    (false, st1)

/-- `RuleEngine.get_rule_by_id` (the needle is `violation.rule_id`, itself
optional in the source). -/
def getRuleById (src : RuleSource) (rid : Option String) : Option Rule :=
  (src.rules.getD []).find? fun r => r.rule_id == rid

/-- `RuleEngine.get_enabled_rules`. -/
def getEnabledRules (src : RuleSource) : List Rule :=
  (src.rules.getD []).filter fun r => r.enabled.getD true

/-! ## Validator -/

/-- A violation's resolved `location` dictionary (keys vary by rule kind). -/
structure VLoc where
  page : Option Nat := none
  paragraph : Option Int := none
  row : Option Int := none
  table : Option Nat := none
  column : Option Nat := none
  deriving DecidableEq

/-- A `Violation` as built by `DocumentValidator._add_violation`. -/
structure Violation where
  violation_id : Option Nat := none
  rule_id : Option String := none
  rule_name : Option String := none
  severity : String := "medium"
  location : VLoc := {}
  expected : List (String × Val) := []
  actual : List (String × Val) := []
  message : String := ""
  correction_status : String := "pending"
  deriving DecidableEq

/-- The payload `_add_violation` receives (everything but the id). -/
structure ViolationData where
  rule_id : Option String := none
  rule_name : Option String := none
  severity : String := "medium"
  location : VLoc := {}
  expected : List (String × Val) := []
  actual : List (String × Val) := []
  message : String := ""
  deriving DecidableEq

/-- The validator's mutable state: accumulated violations and the id
counter. -/
structure ValidatorState where
  violations : List Violation := []
  counter : Nat := 0
  deriving DecidableEq

/-- `DocumentValidator._add_violation`: increment the counter, stamp it on
the new violation, append. -/
def addViolationData (st : ValidatorState) (d : ViolationData) : ValidatorState :=
  { violations := st.violations ++
      [{ violation_id := some (st.counter + 1), rule_id := d.rule_id,
         rule_name := d.rule_name, severity := d.severity,
         location := d.location, expected := d.expected, actual := d.actual,
         message := d.message, correction_status := "pending" }],
    counter := st.counter + 1 }

/-- `_alignment_str_to_int` (`mapping.get(align_str.lower(), 0)`). -/
def alignmentStrToInt (s : String) : Nat :=
  if strLower s = "left" then 0
  else if strLower s = "center" then 1
  else if strLower s = "right" then 2
  else if strLower s = "justify" then 3
  else 0

/-- `_alignment_int_to_str`. -/
def alignmentIntToStr (n : Nat) : String :=
  if n = 0 then "left"
  else if n = 1 then "center"
  else if n = 2 then "right"
  else if n = 3 then "justify"
  else "left"

/-- `_get_alignment_as_int`: `None` means LEFT (0). -/
def getAlignmentAsInt (a : Option Nat) : Nat := a.getD 0

/-- `_get_paragraph_bold`: bold of the first run, `None` when no runs. -/
def getParagraphBold (p : Paragraph) : Option Bool :=
  match p.runs with
  | [] => none
  | r :: _ => r.font.bold

/-- Alignment sub-check of `_validate_paragraph` (the expected string is
lowered once at the call site and again inside `_alignment_str_to_int`). -/
def alignFlag (v : ValidationMap) (para : Paragraph) : Bool :=
  match v.alignment with
  | none => false
  | some s => alignmentStrToInt (strLower s) != getAlignmentAsInt para.alignment

/-- Bold sub-check of `_validate_paragraph`: actual `None` is normalized to
`False` before comparison. -/
def boldFlag (v : ValidationMap) (para : Paragraph) : Bool :=
  match v.bold with
  | none => false
  | some b => b != (getParagraphBold para).getD false

/-- Font-name sub-check: only for an existing first run, and only on an
explicit mismatch (`None` is never flagged). -/
def fontNameFlag (v : ValidationMap) (para : Paragraph) : Bool :=
  match para.runs with
  | [] => false
  | r :: _ =>
      match v.font_name with
      | none => false
      | some fn =>
          match r.font.name with
          | none => false
          | some a => a != fn

/-- Font-size sub-check: only for an existing first run, and only on an
explicit mismatch. -/
def fontSizeFlag (v : ValidationMap) (para : Paragraph) : Bool :=
  match para.runs with
  | [] => false
  | r :: _ =>
      match v.font_size with
      | none => false
      | some fs =>
          match r.font.size with
          | none => false
          | some a => a != fs

/-- The `expected` map `_validate_paragraph` accumulates, in insertion
order (with runs: name before size; without runs: size before name, as in
the source). -/
def expectedEntries (v : ValidationMap) (para : Paragraph) : List (String × Val) :=
  (match v.alignment with
   | some s => [("alignment", Val.str (strLower s))]
   | none => []) ++
  (match v.bold with
   | some b => [("bold", Val.bool b)]
   | none => []) ++
  (if para.runs.isEmpty then
    (match v.font_size with
     | some q => [("font_size", Val.num q)]
     | none => []) ++
    (match v.font_name with
     | some s => [("font_name", Val.str s)]
     | none => [])
  else
    (match v.font_name with
     | some s => [("font_name", Val.str s)]
     | none => []) ++
    (match v.font_size with
     | some q => [("font_size", Val.num q)]
     | none => []))

/-- The `actual` map `_validate_paragraph` accumulates. -/
def actualEntries (v : ValidationMap) (para : Paragraph) : List (String × Val) :=
  (match v.alignment with
   | some _ =>
      [("alignment",
        Val.str (alignmentIntToStr (getAlignmentAsInt para.alignment)))]
   | none => []) ++
  (match v.bold with
   | some _ =>
      [("bold",
        match getParagraphBold para with
        | some b => Val.bool b
        | none => Val.null)]
   | none => []) ++
  (match para.runs with
   | [] =>
      (match v.font_size with
       | some _ => [("font_size", Val.null)]
       | none => []) ++
      (match v.font_name with
       | some _ => [("font_name", Val.null)]
       | none => [])
   | r :: _ =>
      (match v.font_name with
       | some _ =>
          [("font_name",
            Val.str (match r.font.name with
                     | some a => if a.isEmpty then "default" else a
                     | none => "default"))]
       | none => []) ++
      (match v.font_size with
       | some _ =>
          [("font_size",
            match r.font.size with
            | some a => Val.num a
            | none => Val.null)]
       | none => []))

/-- `_generate_message`: list the keys whose expected and actual values
differ (numeric formatting and quoting abbreviated). -/
def generateMessage (rowNum : Int) (exp act : List (String × Val)) : String :=
  "Row " ++ toString rowNum ++ ": " ++
    String.intercalate "; "
      (exp.filterMap fun kv =>
        match act.lookup kv.1 with
        | some av =>
            if kv.2 != av then
              some (kv.1 ++ ": expected " ++ valToString kv.2 ++ ", got " ++
                valToString av)
            else none
        | none => none)

/-- `DocumentValidator._validate_paragraph` on one index: `some none` = no
violation, `some (some d)` = one violation payload, `none` = `IndexError`
(negative index beyond the wrap range) propagating to the per-rule
handler.  The only bounds guard is `para_index >= len(doc.paragraphs)`. -/
def violationDataFor (doc : Doc) (i : Int) (rule : Rule) :
    Option (Option ViolationData) :=
  if (doc.paragraphs.length : Int) ≤ i then some none
  else
    match pythonGet doc.paragraphs i with
    | none => none
    | some para =>
      let v := rule.validation.getD {}
      if alignFlag v para || boldFlag v para || fontNameFlag v para ||
          fontSizeFlag v para then
        let exp := expectedEntries v para
        let act := actualEntries v para
        some (some
          { rule_id := rule.rule_id,
            rule_name := match rule.description with
                         | some d => some d
                         | none => rule.rule_id,
            severity := rule.severity.getD "medium",
            location := { page := some 1, paragraph := some i,
                          row := some (i + 1) },
            expected := exp, actual := act,
            message := generateMessage (i + 1) exp act })
      else some none

/-- One `_validate_paragraph` call as (emitted payloads, no-exception). -/
def paraEmit (doc : Doc) (i : Int) (rule : Rule) : List ViolationData × Bool :=
  match violationDataFor doc i rule with
  | none => ([], false)
  | some none => ([], true)
  | some (some d) => ([d], true)

/-- A loop of `_validate_paragraph` calls, stopping at the first exception
(which the per-rule handler then swallows). -/
def paraEmitSeq (doc : Doc) (rule : Rule) : List Int → List ViolationData
  | [] => []
  | i :: rest =>
      match paraEmit doc i rule with
      | (ds, true) => ds ++ paraEmitSeq doc rule rest
      | (ds, false) => ds

/-- `[a, a+1, ..., b-1]` over the integers (Python `range(a, b)`). -/
def intRange (a b : Int) : List Int :=
  (List.range (b - a).toNat).map fun k => a + (k : Int)

/-- `"start-end".split('-')` parsed by `map(int, ...)` with exactly two
parts (any other shape raises `ValueError`, caught by the per-rule
handler). -/
def parseIntPair (s : String) : Option (Nat × Nat) :=
  match s.splitOn "-" with
  | [a, b] =>
      match a.toNat?, b.toNat? with
      | some x, some y => some (x, y)
      | _, _ => none
  | _ => none

/-- Python `str.isdigit` (ASCII digits; nonempty). -/
def isDigitString (s : String) : Bool :=
  !s.data.isEmpty && s.data.all Char.isDigit

/-- Python `"all" in s` (substring test via `splitOn`). -/
def containsAll (s : String) : Bool :=
  (s.splitOn "all").length ≥ 2

/-- `DocumentValidator._validate_cover_page_rule` as the ordered list of
violation payloads it appends. -/
def coverEmit (doc : Doc) (rule : Rule) : List ViolationData :=
  match (rule.location.getD {}).row_from_top with
  | none => []
  | some (.int n) => paraEmitSeq doc rule [n - 1]
  | some (.str s) =>
      if isDigitString s then
        paraEmitSeq doc rule [((s.toNat?.getD 0 : Nat) : Int) - 1]
      else if s.data.contains '-' then
        match parseIntPair s with
        | some (a, b) =>
            paraEmitSeq doc rule
              (intRange ((a : Int) - 1)
                (min (b : Int) (doc.paragraphs.length : Int)))
        | none => []
      else if containsAll (strLower s) then
        paraEmitSeq doc rule
          (intRange 0 (min 30 doc.paragraphs.length : Nat))
      else []

/-- Row-height payload for `TABLE_ROW_HEIGHT` (display rounding of the
actual height abbreviated). -/
def rowHeightCheck (rule : Rule) (expH : ℚ) (ti ri : Nat) (row : TableRow) :
    List ViolationData :=
  match row.height with
  | none => []
  | some h =>
      if h = 0 then []
      else if (5 / 100 : ℚ) < |h - expH| then
        [{ rule_id := rule.rule_id,
           rule_name := match rule.description with
                        | some d => some d
                        | none => rule.rule_id,
           severity := rule.severity.getD "medium",
           location := { table := some ti, row := some (ri : Int) },
           expected := [("row_height_cm", Val.num expH)],
           actual := [("row_height_cm", Val.num h)],
           message := "Table " ++ toString ti ++ " Row " ++ toString ri ++
             ": height mismatch" }]
      else []

/-- Column-width payload for `TABLE_VALUE_COLUMN_WIDTH`. -/
def colWidthCheck (rule : Rule) (expW : ℚ) (ti ci : Nat)
    (col : Option TableColumn) : List ViolationData :=
  match col with
  | none => []
  | some c =>
      match c.width with
      | none => []
      | some w =>
          if w = 0 then []
          else if (1 / 10 : ℚ) < |w - expW| then
            [{ rule_id := rule.rule_id,
               rule_name := match rule.description with
                            | some d => some d
                            | none => rule.rule_id,
               severity := rule.severity.getD "medium",
               location := { table := some ti, column := some ci },
               expected := [("column_width_cm", Val.num expW)],
               actual := [("column_width_cm", Val.num w)],
               message := "Table " ++ toString ti ++ " Column " ++
                 toString ci ++ ": width mismatch" }]
          else []

/-- Whether a run's text contains a digit or a dollar sign
(`any(c.isdigit() or c == '$' for c in run.text)`). -/
def qualifiesRun (r : Run) : Bool :=
  r.text.data.any fun c => c.isDigit || c == '$'

/-- The inner run loop of the `BALANCE_SHEET_CURRENT_PERIOD_BOLD` check:
scan runs in order; the first qualifying non-bold run emits and `break`s
(qualifying bold runs keep scanning).  Returns whether a violation was
emitted. -/
def scanRunsCP : List Run → Bool
  | [] => false
  | r :: rest =>
      if qualifiesRun r then
        if r.font.bold != some true then true else scanRunsCP rest
      else scanRunsCP rest

/-- The current-period-bold payload for one row. -/
def cpData (rule : Rule) (ti ri col : Nat) : ViolationData :=
  { rule_id := rule.rule_id,
    rule_name := match rule.description with
                 | some d => some d
                 | none => rule.rule_id,
    severity := rule.severity.getD "medium",
    location := { table := some ti, row := some (ri : Int),
                  column := some col },
    expected := [("bold", Val.bool true)],
    actual := [("bold", Val.bool false)],
    message := "Table " ++ toString ti ++ " Row " ++ toString ri ++
      ": current period values should be bold" }

/-- The paragraph loop over the last cell: the `break` in the source exits
only the run loop, so every paragraph may contribute one payload. -/
def cpScanParas (rule : Rule) (ti ri col : Nat) :
    List Paragraph → List ViolationData
  | [] => []
  | p :: ps =>
      (if scanRunsCP p.runs then [cpData rule ti ri col] else []) ++
        cpScanParas rule ti ri col ps

/-- One row of the current-period-bold check (`if len(row.cells) > 0`,
last cell, all its paragraphs). -/
def cpRowEmit (rule : Rule) (ti ri : Nat) (row : TableRow) :
    List ViolationData :=
  match row.cells.getLast? with
  | none => []
  | some c => cpScanParas rule ti ri (row.cells.length - 1) c.paragraphs

/-- `DocumentValidator._validate_table_rule` as the ordered list of
violation payloads it appends (dispatch is by `rule_id`). -/
def tableEmit (doc : Doc) (rule : Rule) : List ViolationData :=
  if doc.tables.isEmpty then []
  else
    doc.tables.enum.flatMap fun tp =>
      if rule.rule_id = some "TABLE_ROW_HEIGHT" then
        let expH := ((rule.validation.getD {}).row_height).getD (37 / 100)
        tp.2.rows.enum.flatMap fun rp => rowHeightCheck rule expH tp.1 rp.1 rp.2
      else if rule.rule_id = some "TABLE_VALUE_COLUMN_WIDTH" then
        let expW := ((rule.validation.getD {}).column_width).getD (23 / 10)
        let n := tp.2.columns.length
        ((List.range (n - (n - 3))).map fun k => (n - 3) + k).flatMap fun ci =>
          colWidthCheck rule expW tp.1 ci (tp.2.columns.get? ci)
      else if rule.rule_id = some "BALANCE_SHEET_CURRENT_PERIOD_BOLD" then
        (List.enumFrom 1 (tp.2.rows.drop 1)).flatMap fun rp =>
          cpRowEmit rule tp.1 rp.1 rp.2
      else []

/-- `DocumentValidator._validate_rule`: dispatch by category; unknown
categories emit nothing. -/
def ruleEmit (doc : Doc) (rule : Rule) : List ViolationData :=
  if rule.category = some "cover_page" then coverEmit doc rule
  else if rule.category = some "table_structure" ∨
      rule.category = some "table_formatting" then tableEmit doc rule
  else []

/-- `DocumentValidator._validate_rule` wrapped in state threading. -/
def validateRule (st : ValidatorState) (doc : Doc) (rule : Rule) :
    ValidatorState :=
  (ruleEmit doc rule).foldl addViolationData st

/-- `DocumentValidator.validate_document`: reset the violation list and the
counter (lines 79-80 of the source — the prior state is discarded), then
validate every enabled rule in order. -/
def validateDocument (_prevState : ValidatorState) (src : RuleSource)
    (doc : Doc) : ValidatorState :=
  (getEnabledRules src).foldl (fun st r => validateRule st doc r)
    { violations := [], counter := 0 }

/-! ## Corrector -/

/-- The outcome record of one correction attempt (the wall-clock timestamp
field is omitted from the model). -/
structure CorrectionResult where
  violation_id : Option Nat := none
  rule_id : Option String := none
  status : String := "pending"
  message : String := ""
  error_details : Option String := none
  deriving DecidableEq

/-- `DocumentCorrector._parse_alignment`
(`alignment_map.get(alignment_str.lower(), WD_ALIGN_PARAGRAPH.LEFT)`). -/
def parseAlignmentC (s : String) : Nat :=
  if strLower s = "left" then 0
  else if strLower s = "center" then 1
  else if strLower s = "right" then 2
  else if strLower s = "justify" then 3
  else 0

/-- Truncate a rational toward zero (Python `int(...)`). -/
def truncToInt (q : ℚ) : Int :=
  if 0 ≤ q then ⌊q⌋ else ⌈q⌉

/-- `Pt(points)` stores `int(points * 12700)` EMU; reading `.pt` back
divides by 12700 — the net effect on a size stored in points. -/
def ptQuant (q : ℚ) : ℚ :=
  ((truncToInt (q * 12700) : ℚ)) / 12700

/-- The run-font mutation of `_apply_formatting_violation` (only properties
present in the map are touched; `font.size` goes through `Pt`). -/
def updateRunFont (props : CorrectionProps) (r : Run) : Run :=
  { r with font :=
      { r.font with
        name := match props.font_name with
                | some fn => some fn
                | none => r.font.name,
        size := match props.font_size with
                | some fs => some (ptQuant fs)
                | none => r.font.size,
        bold := match props.bold with
                | some b => some b
                | none => r.font.bold } }

/-- Replace the paragraph at resolved position `k`. -/
def setParagraph (doc : Doc) (k : Nat) (p : Paragraph) : Doc :=
  { doc with paragraphs := doc.paragraphs.set k p }

/-- The paragraph mutation of `_apply_formatting_violation`: set the
alignment when the action names one; when runs exist, set the per-run font
properties named in the action. -/
def corrParagraph (action : CorrectionAction) (para : Paragraph) : Paragraph :=
  let props := action.properties
  let para1 :=
    match props.alignment with
    | some s => { para with alignment := some (parseAlignmentC s) }
    | none => para
  if para1.runs.isEmpty then para1
  else { para1 with runs := para1.runs.map (updateRunFont props) }

/-- The paragraph mutation of `_apply_alignment_violation`: alignment
only. -/
def alignParagraph (action : CorrectionAction) (para : Paragraph) : Paragraph :=
  match action.properties.alignment with
  | some s => { para with alignment := some (parseAlignmentC s) }
  | none => para

/-- `DocumentCorrector._apply_formatting_violation`: raise `ValueError` when
the paragraph index is missing or `>= len`, raise `IndexError` when a
negative index is beyond the wrap range; otherwise mutate the resolved
paragraph. -/
def applyFormattingViolation (doc : Doc) (v : Violation)
    (action : CorrectionAction) : Except String Doc :=
  match v.location.paragraph with
  | none => .error "Invalid paragraph index: None"
  | some i =>
      if (doc.paragraphs.length : Int) ≤ i then
        .error ("Invalid paragraph index: " ++ toString i)
      else
        match pythonResolve doc.paragraphs.length i with
        | none => .error "list index out of range"
        | some k =>
            .ok (setParagraph doc k
              (corrParagraph action ((doc.paragraphs.get? k).getD {})))

/-- `DocumentCorrector._apply_alignment_violation`: same bounds behaviour,
alignment only. -/
def applyAlignmentViolation (doc : Doc) (v : Violation)
    (action : CorrectionAction) : Except String Doc :=
  match v.location.paragraph with
  | none => .error "Invalid paragraph index: None"
  | some i =>
      if (doc.paragraphs.length : Int) ≤ i then
        .error ("Invalid paragraph index: " ++ toString i)
      else
        match pythonResolve doc.paragraphs.length i with
        | none => .error "list index out of range"
        | some k =>
            .ok (setParagraph doc k
              (alignParagraph action ((doc.paragraphs.get? k).getD {})))

/-- Render the action type for result messages (Python `str(None)`). -/
def actionTypeStr (t : Option String) : String :=
  match t with
  | some s => s
  | none => "None"

/-- `DocumentCorrector._apply_correction`: look up the originating rule,
dispatch on `correction_action.type` (only `apply_formatting` and
`apply_alignment` are handled; anything else is `skipped`), catching the
in-action exception as a `failed` result with `error_details`. -/
def applyCorrection (engine : Option RuleSource) (doc : Doc) (v : Violation) :
    Doc × CorrectionResult :=
  let rule? := match engine with
               | some src => getRuleById src v.rule_id
               | none => none
  match rule? with
  | none =>
      (doc, { violation_id := v.violation_id, rule_id := v.rule_id,
              status := "failed", message := "Rule not found" })
  | some rule =>
      let action := rule.correction_action.getD {}
      if action.type = some "apply_formatting" then
        match applyFormattingViolation doc v action with
        | .ok doc1 =>
            (doc1, { violation_id := v.violation_id, rule_id := v.rule_id,
                     status := "applied",
                     message := "Successfully applied " ++
                       actionTypeStr action.type })
        | .error e =>
            (doc, { violation_id := v.violation_id, rule_id := v.rule_id,
                    status := "failed",
                    message := "Failed to apply " ++ actionTypeStr action.type,
                    error_details := some e })
      else if action.type = some "apply_alignment" then
        match applyAlignmentViolation doc v action with
        | .ok doc1 =>
            (doc1, { violation_id := v.violation_id, rule_id := v.rule_id,
                     status := "applied",
                     message := "Successfully applied " ++
                       actionTypeStr action.type })
        | .error e =>
            (doc, { violation_id := v.violation_id, rule_id := v.rule_id,
                    status := "failed",
                    message := "Failed to apply " ++ actionTypeStr action.type,
                    error_details := some e })
      else
        (doc, { violation_id := v.violation_id, rule_id := v.rule_id,
                status := "skipped",
                message := "Unknown action type: " ++
                  actionTypeStr action.type })

/-- `DocumentCorrector._get_rule_priority`: 999 when there is no engine, the
rule is not found, or the rule declares no priority. -/
def getRulePriority (engine : Option RuleSource) (rid : Option String) : Int :=
  match engine with
  | none => 999
  | some src =>
      match getRuleById src rid with
      | some r => r.priority.getD 999
      | none => 999

/-- `sorted(violations, key=lambda v: self._get_rule_priority(v.rule_id))`:
Python's `sorted` is a stable ascending sort by key, which is extensionally
`List.insertionSort` with the key-`≤` relation. -/
def sortViolationsByPriority (engine : Option RuleSource)
    (violations : List Violation) : List Violation :=
  List.insertionSort
    (fun a b => getRulePriority engine a.rule_id ≤
      getRulePriority engine b.rule_id) violations

/-- The per-violation loop of `apply_corrections`: each attempt yields one
result; an in-attempt exception is already absorbed inside
`applyCorrection`, so the batch always runs to completion.  (The in-place
write-back of `violation.correction_status` is not modelled: nothing in the
corrector reads it afterwards.) -/
def applyCorrectionsLoop (engine : Option RuleSource) :
    Doc → List Violation → Doc × List CorrectionResult
  | doc, [] => (doc, [])
  | doc, v :: rest =>
      let r := applyCorrection engine doc v
      let rs := applyCorrectionsLoop engine r.1 rest
      (rs.1, r.2 :: rs.2)

/-- `DocumentCorrector.apply_corrections` (document open/save omitted). -/
def applyCorrections (engine : Option RuleSource) (doc : Doc)
    (violations : List Violation) : Doc × List CorrectionResult :=
  applyCorrectionsLoop engine doc (sortViolationsByPriority engine violations)

/-! ## Concrete fixtures used by counterexamples and witnesses -/

/-- A blank paragraph (no runs, unset alignment): trimmed text is empty. -/
def blankPara : Paragraph := { alignment := none, runs := [] }

/-- One blank paragraph. -/
def docBlank : Doc := { paragraphs := [blankPara] }

/-- A cover-page rule expecting a blank, centered first paragraph. -/
def ruleBlankCenter : Rule :=
  { rule_id := some "CP1", category := some "cover_page",
    location := some { row_from_top := some (.int 1) },
    validation := some { alignment := some "center", is_blank := some true },
    correction_action := some { type := some "apply_formatting" } }

/-- Rule source holding only `ruleBlankCenter`. -/
def srcBlankCenter : RuleSource :=
  { version := some "1.0", rules := some [ruleBlankCenter] }

/-- A schema-complete rule. -/
def ruleOk : Rule :=
  { rule_id := some "OK1", category := some "cover_page",
    validation := some {},
    correction_action := some { type := some "apply_formatting" } }

/-- A schema-complete source. -/
def srcOk : RuleSource := { version := some "1.0", rules := some [ruleOk] }

/-- An engine state after a successful load of `srcOk`. -/
def stLoaded : RuleEngineState := (loadRules 0 {} srcOk).2

/-- A source missing the required `version` field. -/
def srcBad : RuleSource := { version := none, rules := some [] }

/-- One paragraph with a run, unset alignment. -/
def docOneRun : Doc :=
  { paragraphs := [{ alignment := none, runs := [{ text := "X" }] }] }

/-- A centering rule whose correction action carries no properties at all:
its application mutates nothing yet reports `applied`. -/
def ruleCenterNoProps : Rule :=
  { rule_id := some "R1", category := some "cover_page",
    severity := some "high",
    location := some { row_from_top := some (.int 1) },
    validation := some { alignment := some "center" },
    correction_action := some { type := some "apply_formatting",
                                properties := {} } }

/-- Rule source holding only `ruleCenterNoProps`. -/
def srcCenterNoProps : RuleSource :=
  { version := some "1.0", rules := some [ruleCenterNoProps] }

/-- The violations the validator finds on `docOneRun`. -/
def violsCenter : List Violation :=
  (validateDocument {} srcCenterNoProps docOneRun).violations

/-- The correction pass over those violations. -/
def correctedCenter : Doc × List CorrectionResult :=
  applyCorrections (some srcCenterNoProps) docOneRun violsCenter

/-- A rule that declares no priority. -/
def ruleNoPriority : Rule :=
  { rule_id := some "NP", category := some "cover_page",
    validation := some {}, correction_action := some { type := none } }

/-- Source for the priority witness. -/
def srcNoPriority : RuleSource :=
  { version := some "1.0", rules := some [ruleNoPriority] }

/-- A rule whose correction action is `apply_table_row_height`. -/
def ruleRowHeightAction : Rule :=
  { rule_id := some "TRH", category := some "table_structure",
    validation := some { row_height := some (37 / 100) },
    correction_action := some { type := some "apply_table_row_height",
                                properties := {} } }

/-- A rule whose correction action is `apply_column_width`. -/
def ruleColWidthAction : Rule :=
  { rule_id := some "TCW", category := some "table_structure",
    validation := some { column_width := some (23 / 10) },
    correction_action := some { type := some "apply_column_width",
                                properties := {} } }

/-- Source holding the two table-action rules. -/
def srcTableActions : RuleSource :=
  { version := some "1.0", rules := some [ruleRowHeightAction,
                                          ruleColWidthAction] }

/-- A violation produced by the row-height rule. -/
def vRowHeight : Violation :=
  { violation_id := some 1, rule_id := some "TRH",
    location := { table := some 0, row := some 0 } }

/-- A violation produced by the column-width rule. -/
def vColWidth : Violation :=
  { violation_id := some 2, rule_id := some "TCW",
    location := { table := some 0, column := some 0 } }

/-- A document with one mis-sized table. -/
def docTable : Doc :=
  { paragraphs := [],
    tables := [{ rows := [{ height := some 1, cells := [] }],
                 columns := [{ width := some 1 }] }] }

/-- A non-bold run whose text contains a digit and a dollar sign. -/
def runDollar : Run := { text := "$1", font := { bold := none } }

/-- A cell whose two paragraphs each hold one qualifying non-bold run. -/
def cellTwoParas : Cell :=
  { paragraphs := [{ runs := [runDollar] }, { runs := [runDollar] }] }

/-- A table with a header row and one data row whose last (only) cell is
`cellTwoParas`. -/
def tableTwoParas : Table :=
  { rows := [{ cells := [{ paragraphs := [] }] }, { cells := [cellTwoParas] }],
    columns := [] }

/-- The current-period-bold rule. -/
def ruleCPBold : Rule :=
  { rule_id := some "BALANCE_SHEET_CURRENT_PERIOD_BOLD",
    category := some "table_formatting", validation := some {},
    correction_action := some { type := none } }

/-- Source holding only `ruleCPBold`. -/
def srcCPBold : RuleSource :=
  { version := some "1.0", rules := some [ruleCPBold] }

/-- Document carrying `tableTwoParas`. -/
def docCPBold : Doc := { paragraphs := [], tables := [tableTwoParas] }

/-- A rule with an unrecognized correction action type. -/
def ruleMystery : Rule :=
  { rule_id := some "MY", category := some "cover_page",
    validation := some {},
    correction_action := some { type := some "mystery_action" } }

/-- A rule with an `apply_formatting` correction action. -/
def ruleFmt : Rule :=
  { rule_id := some "FMT", category := some "cover_page",
    validation := some {},
    correction_action := some { type := some "apply_formatting",
                                properties := {} } }

/-- Source holding `ruleMystery` and `ruleFmt`. -/
def srcMysteryFmt : RuleSource :=
  { version := some "1.0", rules := some [ruleMystery, ruleFmt] }

/-- A violation of the mystery-action rule at an out-of-bounds paragraph. -/
def vOOBMystery : Violation :=
  { violation_id := some 1, rule_id := some "MY",
    location := { paragraph := some 10 } }

/-- A violation of the formatting rule at an out-of-bounds paragraph. -/
def vOOBFmt : Violation :=
  { violation_id := some 2, rule_id := some "FMT",
    location := { paragraph := some 10 } }

/-- A document with a single default paragraph. -/
def docOnePara : Doc := { paragraphs := [{}] }

/-- Two paragraphs: a centered first one and a left (unset) last one. -/
def docCenterThenLeft : Doc :=
  { paragraphs := [{ alignment := some 1, runs := [] },
                   { alignment := none, runs := [] }] }

/-- A cover-page centering rule with `row_from_top = -1`. -/
def ruleRowNeg : Rule :=
  { rule_id := some "COV", category := some "cover_page",
    location := some { row_from_top := some (.int (-1)) },
    validation := some { alignment := some "center" },
    correction_action := some { type := none } }

/-- Source holding only `ruleRowNeg`. -/
def srcRowNeg : RuleSource :=
  { version := some "1.0", rules := some [ruleRowNeg] }

/-- A cover-page centering rule with `row_from_top = 0`. -/
def ruleRowZero : Rule :=
  { rule_id := some "COVZ", category := some "cover_page",
    location := some { row_from_top := some (.int 0) },
    validation := some { alignment := some "center" },
    correction_action := some { type := none } }

/-- A formatting action that centers the paragraph. -/
def actCenter : CorrectionAction :=
  { type := some "apply_formatting",
    properties := { alignment := some "center" } }

/-- A centering rule whose correction action matches its validation map. -/
def ruleCenterFull : Rule :=
  { rule_id := some "R2", category := some "cover_page",
    location := some { row_from_top := some (.int 1) },
    validation := some { alignment := some "center" },
    correction_action := some actCenter }

/-- A violation of `ruleCenterFull` at paragraph 0. -/
def vCenter : Violation :=
  { violation_id := some 1, rule_id := some "R2",
    location := { paragraph := some 0 } }

/-- `docOneRun` after the centering correction. -/
def docOneRunCentered : Doc :=
  { paragraphs := [{ alignment := some 1, runs := [{ text := "X" }] }] }

/-! ## Claim C1 — the `is_blank` paragraph check -/

/-- C1 (counterexample): a blank paragraph (trimmed text length zero) whose
rule expects `is_blank: true` is *not* exempt from further sub-checks: the
validator still runs the alignment check and emits a violation whose
expected map is exactly the alignment key.  Under the claim, this location
would yield no violation at all. -/
theorem claim_C1_counterexample :
    docBlank.paragraphs.map Paragraph.text = [""] ∧
    (ruleBlankCenter.validation.getD {}).is_blank = some true ∧
    (validateDocument {} srcBlankCenter docBlank).violations.map
      (fun v => v.expected.map Prod.fst) = [["alignment"]] := by
  refine ⟨rfl, rfl, ?_⟩
  rfl

/-- C1 (amended): the validator has no `is_blank` handling at all — the
outcome of `_validate_paragraph` is invariant under any change to the
`is_blank` key of the validation map, and the remaining sub-checks run
regardless of whether the paragraph is blank. -/
theorem claim_C1_amended (doc : Doc) (i : Int) (rule : Rule)
    (b : Option Bool) :
    violationDataFor doc i
      { rule with
        validation := some (withIsBlank (rule.validation.getD {}) b) } =
    violationDataFor doc i rule := by
  rcases rule with ⟨rid, cat, sev, pri, en, desc, loc, val, ca⟩
  cases val <;> rfl

/-! ## Claim C2 — schema validation and load failure -/

/-- C2 (counterexample): loading a source that lacks the required `version`
field fails, but the store is *not* left as it was: `self.rules` has
already been replaced by the failed source (the assignment happens before
`_validate_rules_structure` runs), while the category index keeps its old
value.  The claim asserts both are left exactly as before. -/
theorem claim_C2_counterexample :
    (loadRules 5 stLoaded srcBad).1 = false ∧
    (loadRules 5 stLoaded srcBad).2.rules ≠ stLoaded.rules ∧
    (loadRules 5 stLoaded srcBad).2.rules = srcBad ∧
    (loadRules 5 stLoaded srcBad).2.rules_by_category =
      stLoaded.rules_by_category := by
  decide

/-- C2 (amended): a load fails (returns `False`; the source raises no
`SchemaError`) exactly when the source lacks `version` or `rules` or some
rule lacks one of `rule_id`, `category`, `validation`, `correction_action`;
on such a failure the category index and the cache timestamp are left
unchanged, but the store's raw in-memory rules have already been replaced
by the failed source's content. -/
theorem claim_C2_amended (now : Nat) (st : RuleEngineState)
    (src : RuleSource) :
    ((loadRules now st src).1 = true ↔
      (src.version.isSome ∧ src.rules.isSome ∧
        ∀ r ∈ src.rules.getD [], r.rule_id.isSome ∧ r.category.isSome ∧
          r.validation.isSome ∧ r.correction_action.isSome)) ∧
    ((loadRules now st src).1 = false →
      (loadRules now st src).2 = { st with rules := src }) := by
  have hiff : validateRulesStructure src = true ↔
      (src.version.isSome ∧ src.rules.isSome ∧
        ∀ r ∈ src.rules.getD [], r.rule_id.isSome ∧ r.category.isSome ∧
          r.validation.isSome ∧ r.correction_action.isSome) := by
    simp [validateRulesStructure, List.all_eq_true, and_assoc]
  have hfst : (loadRules now st src).1 = validateRulesStructure src := by
    unfold loadRules
    split
    · next h => exact h.symm
    · next h => simpa using (Bool.not_eq_true _).mp h |>.symm
  constructor
  · rw [hfst]
    exact hiff
  · intro hfail
    rw [hfst] at hfail
    unfold loadRules
    rw [hfail]
    rfl

/-- C2 (witness): amended load-failure behaviour at the concrete failing
load of `srcBad` over the previously loaded state. -/
theorem claim_C2_witness :
    (loadRules 5 stLoaded srcBad).2 = { stLoaded with rules := srcBad } :=
  (claim_C2_amended 5 stLoaded srcBad).2 (by decide)

/-! ## Claim C5 — table-geometry correction actions -/

/-- C5 (counterexample): a violation whose rule declares
`apply_table_row_height` (resp. `apply_column_width`) is *not* converted
and applied — the rule-driven corrector reports it `skipped`, and the
document is untouched. -/
theorem claim_C5_counterexample :
    (applyCorrection (some srcTableActions) docTable vRowHeight).2.status =
      "skipped" ∧
    (applyCorrection (some srcTableActions) docTable vColWidth).2.status =
      "skipped" ∧
    (applyCorrection (some srcTableActions) docTable vRowHeight).1 =
      docTable := by
  decide

/-- C5 (amended): the rule-driven corrector does not handle
`apply_table_row_height` or `apply_column_width` at all: such violations
fall into the unknown-action branch, are reported `skipped` (never
`applied`), and leave the document unchanged.  (Table geometry is only
modified by the separate rule-independent complete-corrections path, with
hard-coded widths.) -/
theorem claim_C5_amended (engine : Option RuleSource) (src : RuleSource)
    (doc : Doc) (v : Violation) (rule : Rule) (act : CorrectionAction)
    (heng : engine = some src)
    (hrule : getRuleById src v.rule_id = some rule)
    (hact : rule.correction_action = some act)
    (htype : act.type = some "apply_table_row_height" ∨
      act.type = some "apply_column_width") :
    (applyCorrection engine doc v).2.status = "skipped" ∧
    (applyCorrection engine doc v).1 = doc := by
  subst heng
  rcases htype with h | h <;>
    simp [applyCorrection, hrule, hact, h]

/-- C5 (witness): the amended behaviour at the concrete column-width
violation. -/
theorem claim_C5_witness :
    (applyCorrection (some srcTableActions) docTable vColWidth).2.status =
      "skipped" ∧
    (applyCorrection (some srcTableActions) docTable vColWidth).1 =
      docTable :=
  claim_C5_amended (some srcTableActions) srcTableActions docTable vColWidth
    ruleColWidthAction
    { type := some "apply_column_width", properties := {} }
    rfl rfl rfl (Or.inr rfl)

/-! ## Claim C8 — unknown correction action types -/

/-- C8 (confirmed): when the originating rule exists and declares a
`correction_action.type` outside the recognized set, the correction attempt
is reported `skipped` — never `applied` and never `failed`. -/
theorem claim_C8 (engine : Option RuleSource) (src : RuleSource) (doc : Doc)
    (v : Violation) (rule : Rule) (act : CorrectionAction) (t : String)
    (heng : engine = some src)
    (hrule : getRuleById src v.rule_id = some rule)
    (hact : rule.correction_action = some act)
    (htype : act.type = some t)
    (hout : t ∉ (["apply_formatting", "apply_alignment",
      "apply_cover_page_company_formatting", "ensure_blank_row",
      "apply_table_row_height", "apply_column_width",
      "apply_bold_to_current_period"] : List String)) :
    (applyCorrection engine doc v).2.status = "skipped" ∧
    (applyCorrection engine doc v).2.status ≠ "applied" ∧
    (applyCorrection engine doc v).2.status ≠ "failed" := by
  subst heng
  simp only [List.mem_cons, List.not_mem_nil, or_false, not_or] at hout
  obtain ⟨h1, h2, -⟩ := hout
  have hs : (applyCorrection (some src) doc v).2.status = "skipped" := by
    simp [applyCorrection, hrule, hact, htype, h1, h2]
  exact ⟨hs, by rw [hs]; decide, by rw [hs]; decide⟩

/-- C8 (witness): the concrete `mystery_action` violation is skipped. -/
theorem claim_C8_witness :
    (applyCorrection (some srcMysteryFmt) docOnePara vOOBMystery).2.status =
      "skipped" ∧
    (applyCorrection (some srcMysteryFmt) docOnePara
      vOOBMystery).2.status ≠ "applied" ∧
    (applyCorrection (some srcMysteryFmt) docOnePara
      vOOBMystery).2.status ≠ "failed" :=
  claim_C8 (some srcMysteryFmt) srcMysteryFmt docOnePara vOOBMystery
    ruleMystery { type := some "mystery_action", properties := {} }
    "mystery_action" rfl (by decide) rfl rfl (by decide)

/-! ## Claim C6 — the current-period-bold row check -/

/-- C6 (counterexample): one validation pass over a table whose data row's
last cell holds two paragraphs, each with a qualifying non-bold run, emits
*two* violations for that row — the `break` in the source exits only the
run loop, not the paragraph loop.  The claim allows at most one per row. -/
theorem claim_C6_counterexample :
    (validateDocument {} srcCPBold docCPBold).violations.map
      (fun v => (v.location.table, v.location.row)) =
      [(some 0, some 1), (some 0, some 1)] := by
  rfl

/-- Within one paragraph, the run scan emits at most one violation, exactly
when some run qualifies (contains a digit or `$`) and is not bold. -/
theorem scanRunsCP_eq_any (rs : List Run) :
    scanRunsCP rs =
      rs.any fun r => qualifiesRun r && (r.font.bold != some true) := by
  induction rs with
  | nil => rfl
  | cons r rest ih =>
      rw [scanRunsCP, List.any_cons]
      by_cases hq : qualifiesRun r = true
      · by_cases hb : (r.font.bold != some true) = true
        · simp [hq, hb]
        · simp only [Bool.not_eq_true] at hb
          simp [hq, hb, ih]
      · simp only [Bool.not_eq_true] at hq
        simp [hq, ih]

/-- The paragraph loop emits one violation per paragraph whose run scan
fires. -/
theorem cpScanParas_length (rule : Rule) (ti ri col : Nat)
    (ps : List Paragraph) :
    (cpScanParas rule ti ri col ps).length =
      ps.countP fun p => scanRunsCP p.runs := by
  induction ps with
  | nil => rfl
  | cons p rest ih =>
      rw [cpScanParas, List.countP_cons]
      by_cases h : scanRunsCP p.runs = true
      · simp [h, ih]
      · simp only [Bool.not_eq_true] at h
        simp [h, ih]

/-- C6 (amended): per data row, the check emits one violation for *each*
paragraph of the last cell that contains a qualifying (digit or `$`)
non-bold run: within one paragraph the first such run fires the single
violation and the rest of that paragraph's runs are skipped, but every
further such paragraph in the same cell flags the same row again. -/
theorem claim_C6_amended (rule : Rule) (ti ri : Nat) (row : TableRow) :
    (cpRowEmit rule ti ri row).length =
      (match row.cells.getLast? with
       | none => 0
       | some c => c.paragraphs.countP fun p =>
          p.runs.any fun r => qualifiesRun r && (r.font.bold != some true)) := by
  rw [cpRowEmit]
  cases h : row.cells.getLast? with
  | none => rfl
  | some c =>
      rw [cpScanParas_length]
      have : (fun p : Paragraph => scanRunsCP p.runs) =
          (fun p : Paragraph => p.runs.any fun r =>
            qualifiesRun r && (r.font.bold != some true)) := by
        funext p
        exact scanRunsCP_eq_any p.runs
      rw [this]

/-! ## Claim C10 — `row_from_top = 0` and negative row selectors -/

/-- C10 (counterexample): with `row_from_top = -1` on a two-paragraph
document whose *last* paragraph violates the centering expectation, the
pass emits nothing: index `-2` wraps to the *first* paragraph (which is
centered), not the last one the claim says is checked.  Checking the last
paragraph directly would emit a violation. -/
theorem claim_C10_counterexample :
    docCenterThenLeft.paragraphs.length = 2 ∧
    (validateDocument {} srcRowNeg docCenterThenLeft).violations = [] ∧
    violationDataFor docCenterThenLeft 1 ruleRowNeg ≠ some none := by
  refine ⟨rfl, rfl, ?_⟩
  decide

/-- `paraEmitSeq` over a single index is one `_validate_paragraph` call. -/
theorem paraEmitSeq_singleton (doc : Doc) (rule : Rule) (i : Int) :
    paraEmitSeq doc rule [i] = (paraEmit doc i rule).1 := by
  rw [paraEmitSeq]
  rcases h : paraEmit doc i rule with ⟨ds, ok⟩
  cases ok <;> simp [paraEmitSeq]

/-- Python `l[-1]` is the last element. -/
theorem pythonGet_neg_one {α : Type} (l : List α) :
    pythonGet l (-1) = l.getLast? := by
  rw [pythonGet, pythonResolve]
  cases l with
  | nil => rfl
  | cons x xs =>
      rw [if_neg (by omega), if_pos (by simp only [List.length_cons]; omega)]
      show (x :: xs).get? ((x :: xs).length - (-1 : Int).natAbs) = _
      have hna : ((-1 : Int).natAbs) = 1 := rfl
      rw [hna, List.get?_eq_getElem?, List.getLast?_eq_getElem?]

/-- C10 (amended): for `row_from_top = 0` the computed index is `-1`, which
passes the only bounds guard (`len ≤ -1` is impossible) and — by Python's
negative-index wrap-around — the location checked is the document's *last*
paragraph.  For a negative `row_from_top = n` the computed index `n - 1`
also passes the guard, but it resolves to paragraph `len + (n - 1)` when
that is nonnegative (not to the last paragraph), and raises `IndexError`
(the location is silently dropped by the per-rule handler) otherwise. -/
theorem claim_C10_amended :
    (∀ (doc : Doc) (rule : Rule) (loc : LocationMap),
      rule.location = some loc → loc.row_from_top = some (.int 0) →
      coverEmit doc rule = (paraEmit doc (-1) rule).1 ∧
      pythonGet doc.paragraphs (-1) = doc.paragraphs.getLast? ∧
      ¬ ((doc.paragraphs.length : Int) ≤ (-1 : Int))) ∧
    (∀ (n : Int) (doc : Doc), n < 0 →
      ¬ ((doc.paragraphs.length : Int) ≤ n - 1) ∧
      pythonResolve doc.paragraphs.length (n - 1) =
        (if 0 ≤ (doc.paragraphs.length : Int) + (n - 1) then
          some ((doc.paragraphs.length : Int) + (n - 1)).toNat
         else none)) := by
  constructor
  · intro doc rule loc hloc hrow
    refine ⟨?_, pythonGet_neg_one _, by omega⟩
    rw [coverEmit, hloc]
    simp only [Option.getD_some]
    rw [hrow]
    show paraEmitSeq doc rule [(0 : Int) - 1] = (paraEmit doc (-1) rule).1
    norm_num
    exact paraEmitSeq_singleton doc rule (-1)
  · intro n doc hn
    refine ⟨by omega, ?_⟩
    rw [pythonResolve, if_neg (by omega)]
    by_cases h : 0 ≤ (doc.paragraphs.length : Int) + (n - 1)
    · rw [if_pos (by omega), if_pos h]
      congr 1
      omega
    · rw [if_neg (by omega), if_neg h]

/-- C10 (witness): the amended behaviour at the concrete `row_from_top = 0`
rule on the two-paragraph document. -/
theorem claim_C10_witness :
    (coverEmit docCenterThenLeft ruleRowZero =
      (paraEmit docCenterThenLeft (-1) ruleRowZero).1 ∧
    pythonGet docCenterThenLeft.paragraphs (-1) =
      docCenterThenLeft.paragraphs.getLast?) ∧
    (¬ ((docCenterThenLeft.paragraphs.length : Int) ≤ (-3 : Int) - 1) ∧
      pythonResolve docCenterThenLeft.paragraphs.length ((-3 : Int) - 1) =
        none) := by
  have h1 := claim_C10_amended.1 docCenterThenLeft ruleRowZero
    { row_from_top := some (.int 0) } rfl rfl
  have h2 := claim_C10_amended.2 (-3) docCenterThenLeft (by decide)
  exact ⟨⟨h1.1, h1.2.1⟩, ⟨h2.1, by rw [h2.2]; decide⟩⟩

/-! ## Claim C4 — priority-ordered, stable correction order -/

/-- Inserting an element of key `k` with the `key ≤ key` relation places it
before every element of equal key (elements skipped over all have strictly
smaller keys), so the key-`k` sublist gains the element at its front. -/
theorem filter_orderedInsert_of_eq {α : Type} (key : α → Int) (x : α)
    (l : List α) (k : Int) (hx : key x = k) :
    (List.orderedInsert (fun a b => key a ≤ key b) x l).filter
        (fun a => key a == k) =
      x :: l.filter (fun a => key a == k) := by
  induction l with
  | nil => simp [List.orderedInsert, hx]
  | cons y ys ih =>
      rw [List.orderedInsert]
      by_cases h : key x ≤ key y
      · rw [if_pos h]
        simp [List.filter_cons, hx]
      · rw [if_neg h]
        have hy : ¬ (key y = k) := by omega
        simp [List.filter_cons, hy, ih]

/-- Inserting an element of a different key leaves the key-`k` sublist
unchanged. -/
theorem filter_orderedInsert_of_ne {α : Type} (key : α → Int) (x : α)
    (l : List α) (k : Int) (hx : ¬ (key x = k)) :
    (List.orderedInsert (fun a b => key a ≤ key b) x l).filter
        (fun a => key a == k) =
      l.filter (fun a => key a == k) := by
  induction l with
  | nil => simp [List.orderedInsert, hx]
  | cons y ys ih =>
      rw [List.orderedInsert]
      by_cases h : key x ≤ key y
      · rw [if_pos h]
        simp [List.filter_cons, hx]
      · rw [if_neg h]
        simp [List.filter_cons, ih]

/-- Stability of the key-based insertion sort: for every key value, the
sublist of elements with that key is preserved in its original order. -/
theorem filter_insertionSort {α : Type} (key : α → Int) (l : List α)
    (k : Int) :
    (List.insertionSort (fun a b => key a ≤ key b) l).filter
        (fun a => key a == k) =
      l.filter (fun a => key a == k) := by
  induction l with
  | nil => rfl
  | cons x xs ih =>
      rw [List.insertionSort]
      by_cases hx : key x = k
      · rw [filter_orderedInsert_of_eq key x _ k hx, ih]
        simp [List.filter_cons, hx]
      · rw [filter_orderedInsert_of_ne key x _ k hx, ih]
        simp [List.filter_cons, hx]

/-- C4 (confirmed): the batch is processed in non-decreasing order of the
originating rule's priority; equal-priority violations keep their original
discovery order (for every priority value, the sublist with that priority
is unchanged); and a rule with no declared `priority` is keyed 999, hence —
by the sortedness part — runs after any rule with an explicit lower
priority. -/
theorem claim_C4 (engine : Option RuleSource) (l : List Violation) :
    List.Pairwise
      (fun a b => getRulePriority engine a.rule_id ≤
        getRulePriority engine b.rule_id)
      (sortViolationsByPriority engine l) ∧
    (∀ k : Int,
      (sortViolationsByPriority engine l).filter
          (fun v => getRulePriority engine v.rule_id == k) =
        l.filter (fun v => getRulePriority engine v.rule_id == k)) ∧
    (∀ (src : RuleSource) (rid : Option String) (r : Rule),
      engine = some src → getRuleById src rid = some r →
      r.priority = none → getRulePriority engine rid = 999) := by
  refine ⟨?_, ?_, ?_⟩
  · haveI : IsTotal Violation (fun a b => getRulePriority engine a.rule_id ≤
        getRulePriority engine b.rule_id) := ⟨fun a b => le_total _ _⟩
    haveI : IsTrans Violation (fun a b => getRulePriority engine a.rule_id ≤
        getRulePriority engine b.rule_id) :=
      ⟨fun _ _ _ hab hbc => le_trans hab hbc⟩
    exact List.sorted_insertionSort _ l
  · intro k
    exact filter_insertionSort
      (fun v : Violation => getRulePriority engine v.rule_id) l k
  · intro src rid r heng hfind hpri
    subst heng
    simp [getRulePriority, hfind, hpri]

/-- C4 (witness): the default-999 key at the concrete priority-less rule,
via the theorem. -/
theorem claim_C4_witness :
    getRulePriority (some srcNoPriority) (some "NP") = 999 :=
  (claim_C4 (some srcNoPriority) []).2.2 srcNoPriority (some "NP")
    ruleNoPriority rfl rfl rfl

/-! ## Claim C9 — violation-id numbering -/

/-- Appending violations through `_add_violation` keeps the id list equal to
`[1, …, counter]` and the counter equal to the list length. -/
theorem ids_foldl_add (l : List ViolationData) (st : ValidatorState)
    (h1 : st.violations.map (fun v => v.violation_id) =
      (List.range' 1 st.counter).map some)
    (h2 : st.violations.length = st.counter) :
    ((l.foldl addViolationData st).violations.map
        (fun v => v.violation_id) =
      (List.range' 1 (l.foldl addViolationData st).counter).map some) ∧
    (l.foldl addViolationData st).violations.length =
      (l.foldl addViolationData st).counter := by
  induction l generalizing st with
  | nil => exact ⟨h1, h2⟩
  | cons d ds ih =>
      rw [List.foldl_cons]
      apply ih
      · show (st.violations ++ _).map _ = _
        rw [List.map_append, h1]
        show _ = (List.range' 1 (st.counter + 1)).map some
        rw [List.range'_1_concat, List.map_append]
        simp [Nat.add_comm]
      · simp [addViolationData, h2]
  -- the invariant for one `addViolationData` step was discharged inline

/-- The invariant is preserved across whole-rule validations. -/
theorem ids_foldl_rules (rules : List Rule) (doc : Doc)
    (st : ValidatorState)
    (h1 : st.violations.map (fun v => v.violation_id) =
      (List.range' 1 st.counter).map some)
    (h2 : st.violations.length = st.counter) :
    ((rules.foldl (fun st r => validateRule st doc r) st).violations.map
        (fun v => v.violation_id) =
      (List.range' 1
        (rules.foldl (fun st r => validateRule st doc r) st).counter).map
        some) ∧
    (rules.foldl (fun st r => validateRule st doc r) st).violations.length =
      (rules.foldl (fun st r => validateRule st doc r) st).counter := by
  induction rules generalizing st with
  | nil => exact ⟨h1, h2⟩
  | cons r rs ih =>
      rw [List.foldl_cons]
      have h := ids_foldl_add (ruleEmit doc r) st h1 h2
      exact ih (validateRule st doc r) h.1 h.2

/-- C9 (confirmed): within one `validate_document` call the emitted
violation ids, in emission order, are exactly `1, 2, 3, …` up to the number
of violations, whatever the rules; and the counter is reset at the start of
each call — the result does not depend on any previous validator state. -/
theorem claim_C9 (prev : ValidatorState) (src : RuleSource) (doc : Doc) :
    ((validateDocument prev src doc).violations.map
        (fun v => v.violation_id) =
      (List.range' 1
        (validateDocument prev src doc).violations.length).map some) ∧
    validateDocument prev src doc =
      validateDocument { violations := [], counter := 0 } src doc := by
  constructor
  · have h := ids_foldl_rules (getEnabledRules src) doc
      { violations := [], counter := 0 } rfl rfl
    have hdef : validateDocument prev src doc =
        (getEnabledRules src).foldl (fun st r => validateRule st doc r)
          { violations := [], counter := 0 } := rfl
    rw [hdef, h.2]
    exact h.1
  · rfl

/-! ## Claim C7 — out-of-bounds corrections -/

/-- An out-of-bounds paragraph location (missing index, index `≥ len`, or a
negative index beyond the wrap range) makes `_apply_formatting_violation`
raise. -/
theorem applyFormattingViolation_oob (doc : Doc) (v : Violation)
    (act : CorrectionAction)
    (hoob : v.location.paragraph = none ∨ ∃ i,
      v.location.paragraph = some i ∧
      (((doc.paragraphs.length : Int) ≤ i) ∨
        pythonResolve doc.paragraphs.length i = none)) :
    ∃ msg, applyFormattingViolation doc v act = .error msg := by
  rcases hoob with h | ⟨i, hi, hcase⟩
  · exact ⟨"Invalid paragraph index: None",
      by simp only [applyFormattingViolation, h]⟩
  · by_cases hle : (doc.paragraphs.length : Int) ≤ i
    · refine ⟨"Invalid paragraph index: " ++ toString i, ?_⟩
      simp only [applyFormattingViolation, hi]
      rw [if_pos hle]
    · rcases hcase with h | hres
      · exact absurd h hle
      · refine ⟨"list index out of range", ?_⟩
        simp only [applyFormattingViolation, hi]
        rw [if_neg hle, hres]

/-- Same for `_apply_alignment_violation`. -/
theorem applyAlignmentViolation_oob (doc : Doc) (v : Violation)
    (act : CorrectionAction)
    (hoob : v.location.paragraph = none ∨ ∃ i,
      v.location.paragraph = some i ∧
      (((doc.paragraphs.length : Int) ≤ i) ∨
        pythonResolve doc.paragraphs.length i = none)) :
    ∃ msg, applyAlignmentViolation doc v act = .error msg := by
  rcases hoob with h | ⟨i, hi, hcase⟩
  · exact ⟨"Invalid paragraph index: None",
      by simp only [applyAlignmentViolation, h]⟩
  · by_cases hle : (doc.paragraphs.length : Int) ≤ i
    · refine ⟨"Invalid paragraph index: " ++ toString i, ?_⟩
      simp only [applyAlignmentViolation, hi]
      rw [if_pos hle]
    · rcases hcase with h | hres
      · exact absurd h hle
      · refine ⟨"list index out of range", ?_⟩
        simp only [applyAlignmentViolation, hi]
        rw [if_neg hle, hres]

/-- One out-of-bounds correction attempt with a recognized action type
yields `failed` with non-null `error_details` and leaves the document
untouched. -/
theorem applyCorrection_oob (src : RuleSource) (doc : Doc) (v : Violation)
    (rule : Rule) (act : CorrectionAction)
    (hrule : getRuleById src v.rule_id = some rule)
    (hact : rule.correction_action = some act)
    (htype : act.type = some "apply_formatting" ∨
      act.type = some "apply_alignment")
    (hoob : v.location.paragraph = none ∨ ∃ i,
      v.location.paragraph = some i ∧
      (((doc.paragraphs.length : Int) ≤ i) ∨
        pythonResolve doc.paragraphs.length i = none)) :
    (applyCorrection (some src) doc v).2.status = "failed" ∧
    (applyCorrection (some src) doc v).2.error_details.isSome = true ∧
    (applyCorrection (some src) doc v).2.violation_id = v.violation_id ∧
    (applyCorrection (some src) doc v).1 = doc := by
  rcases htype with ht | ht
  · obtain ⟨msg, hmsg⟩ := applyFormattingViolation_oob doc v act hoob
    simp [applyCorrection, hrule, hact, ht, hmsg]
  · obtain ⟨msg, hmsg⟩ := applyAlignmentViolation_oob doc v act hoob
    simp [applyCorrection, hrule, hact, ht, hmsg]

/-- A successful `_apply_formatting_violation` replaces one paragraph in
place, keeping the paragraph count. -/
theorem applyFormattingViolation_ok_length (doc : Doc) (v : Violation)
    (act : CorrectionAction) (doc1 : Doc)
    (h : applyFormattingViolation doc v act = .ok doc1) :
    doc1.paragraphs.length = doc.paragraphs.length := by
  unfold applyFormattingViolation at h
  split at h
  · exact absurd h (by simp)
  · split at h
    · exact absurd h (by simp)
    · split at h
      · exact absurd h (by simp)
      · cases h
        simp [setParagraph]

/-- Same for `_apply_alignment_violation`. -/
theorem applyAlignmentViolation_ok_length (doc : Doc) (v : Violation)
    (act : CorrectionAction) (doc1 : Doc)
    (h : applyAlignmentViolation doc v act = .ok doc1) :
    doc1.paragraphs.length = doc.paragraphs.length := by
  unfold applyAlignmentViolation at h
  split at h
  · exact absurd h (by simp)
  · split at h
    · exact absurd h (by simp)
    · split at h
      · exact absurd h (by simp)
      · cases h
        simp [setParagraph]

/-- No correction attempt changes the paragraph count. -/
theorem applyCorrection_paragraphs_length (e : Option RuleSource)
    (doc : Doc) (v : Violation) :
    (applyCorrection e doc v).1.paragraphs.length =
      doc.paragraphs.length := by
  rcases e with _ | src
  · rfl
  · cases hr : getRuleById src v.rule_id with
    | none => simp [applyCorrection, hr]
    | some rule =>
        by_cases h1 : (rule.correction_action.getD {}).type =
            some "apply_formatting"
        · cases hf : applyFormattingViolation doc v
              (rule.correction_action.getD {}) with
          | ok doc1 =>
              simp only [applyCorrection, hr, h1, if_true, hf]
              exact applyFormattingViolation_ok_length _ _ _ _ hf
          | error msg => simp [applyCorrection, hr, h1, hf]
        · by_cases h2 : (rule.correction_action.getD {}).type =
              some "apply_alignment"
          · cases hf : applyAlignmentViolation doc v
                (rule.correction_action.getD {}) with
            | ok doc1 =>
                simp only [applyCorrection, hr, h1, h2, if_false, if_true,
                  hf]
                exact applyAlignmentViolation_ok_length _ _ _ _ hf
            | error msg => simp [applyCorrection, hr, h1, h2, hf]
          · simp [applyCorrection, hr, h1, h2]

/-- Every violation of a batch gets exactly one result. -/
theorem applyCorrectionsLoop_length (e : Option RuleSource) (doc : Doc)
    (l : List Violation) :
    (applyCorrectionsLoop e doc l).2.length = l.length := by
  induction l generalizing doc with
  | nil => rfl
  | cons w ws ih => simp [applyCorrectionsLoop, ih]

/-- In a batch containing an out-of-bounds violation with a recognized
action type, that violation still receives a `failed` result with details —
whatever happens around it. -/
theorem applyCorrectionsLoop_mem_failed (src : RuleSource) (v : Violation)
    (rule : Rule) (act : CorrectionAction) (N : Nat)
    (hrule : getRuleById src v.rule_id = some rule)
    (hact : rule.correction_action = some act)
    (htype : act.type = some "apply_formatting" ∨
      act.type = some "apply_alignment")
    (hoobN : v.location.paragraph = none ∨ ∃ i,
      v.location.paragraph = some i ∧
      (((N : Int) ≤ i) ∨ pythonResolve N i = none)) :
    ∀ (l : List Violation) (doc : Doc), doc.paragraphs.length = N →
      v ∈ l →
      ∃ r ∈ (applyCorrectionsLoop (some src) doc l).2,
        r.violation_id = v.violation_id ∧ r.status = "failed" ∧
        r.error_details.isSome = true := by
  intro l
  induction l with
  | nil =>
      intro doc _ hv
      exact absurd hv (List.not_mem_nil v)
  | cons w ws ih =>
      intro doc hlen hv
      rcases List.mem_cons.mp hv with rfl | hv'
      · have h := applyCorrection_oob src doc v rule act hrule hact htype
          (by rw [hlen]; exact hoobN)
        refine ⟨(applyCorrection (some src) doc v).2, ?_, h.2.2.1, h.1,
          h.2.1⟩
        show _ ∈ (applyCorrectionsLoop (some src) doc (v :: ws)).2
        simp [applyCorrectionsLoop]
      · have hlen1 : (applyCorrection (some src) doc w).1.paragraphs.length
            = N := by
          rw [applyCorrection_paragraphs_length]
          exact hlen
        obtain ⟨r, hrmem, hrprops⟩ :=
          ih ((applyCorrection (some src) doc w).1) hlen1 hv'
        refine ⟨r, ?_, hrprops⟩
        show _ ∈ (applyCorrectionsLoop (some src) doc (w :: ws)).2
        simp only [applyCorrectionsLoop]
        exact List.mem_cons_of_mem _ hrmem

/-- C7 (counterexample): a violation whose resolved paragraph location is
out of bounds but whose rule declares an *unknown* action type does not
yield `failed` — it is `skipped` (the unknown-type branch runs before any
bounds check), contradicting the claim's unconditional `failed`. -/
theorem claim_C7_counterexample :
    vOOBMystery.location.paragraph = some 10 ∧
    (docOnePara.paragraphs.length : Int) ≤ 10 ∧
    (applyCorrection (some srcMysteryFmt) docOnePara vOOBMystery).2.status
      ≠ "failed" ∧
    (applyCorrection (some srcMysteryFmt) docOnePara vOOBMystery).2.status
      = "skipped" := by
  decide

/-- C7 (amended): for violations whose existing rule declares one of the
recognized paragraph actions (`apply_formatting`/`apply_alignment`), an
out-of-bounds location (missing index, index `≥` paragraph count, or a
negative index beyond the wrap range) yields a `failed` CorrectionResult
carrying non-null `error_details`; every violation of the batch receives
exactly one result, so subsequent corrections still execute. -/
theorem claim_C7_amended (engine : Option RuleSource) (src : RuleSource)
    (doc : Doc) (violations : List Violation) (v : Violation) (rule : Rule)
    (act : CorrectionAction)
    (heng : engine = some src) (hv : v ∈ violations)
    (hrule : getRuleById src v.rule_id = some rule)
    (hact : rule.correction_action = some act)
    (htype : act.type = some "apply_formatting" ∨
      act.type = some "apply_alignment")
    (hoob : v.location.paragraph = none ∨ ∃ i,
      v.location.paragraph = some i ∧
      (((doc.paragraphs.length : Int) ≤ i) ∨
        pythonResolve doc.paragraphs.length i = none)) :
    (applyCorrections engine doc violations).2.length =
      violations.length ∧
    ∃ r ∈ (applyCorrections engine doc violations).2,
      r.violation_id = v.violation_id ∧ r.status = "failed" ∧
      r.error_details.isSome = true := by
  subst heng
  constructor
  · rw [applyCorrections, applyCorrectionsLoop_length,
      sortViolationsByPriority]
    exact (List.perm_insertionSort _ violations).length_eq
  · have hvs : v ∈ sortViolationsByPriority (some src) violations := by
      rw [sortViolationsByPriority]
      exact ((List.perm_insertionSort _ violations).mem_iff).mpr hv
    exact applyCorrectionsLoop_mem_failed src v rule act
      doc.paragraphs.length hrule hact htype hoob _ doc rfl hvs

/-- C7 (witness): in the concrete two-violation batch, the out-of-bounds
`apply_formatting` violation gets a `failed` result with details and the
batch still yields one result per violation. -/
theorem claim_C7_witness :
    (applyCorrections (some srcMysteryFmt) docOnePara
      [vOOBMystery, vOOBFmt]).2.length = 2 ∧
    ∃ r ∈ (applyCorrections (some srcMysteryFmt) docOnePara
        [vOOBMystery, vOOBFmt]).2,
      r.violation_id = vOOBFmt.violation_id ∧ r.status = "failed" ∧
      r.error_details.isSome = true :=
  claim_C7_amended (some srcMysteryFmt) srcMysteryFmt docOnePara
    [vOOBMystery, vOOBFmt] vOOBFmt ruleFmt
    { type := some "apply_formatting", properties := {} }
    rfl (by decide) rfl rfl (Or.inl rfl)
    (Or.inr ⟨10, rfl, Or.inl (by decide)⟩)

/-! ## Claim C3 — validate / correct / re-validate -/

/-- C3 (counterexample): a full pipeline run in which every correction
reports `applied`, yet re-validating the corrected document reports the
same violation again.  The rule expects `alignment: center` but its
`apply_formatting` action carries no properties, so the "applied"
correction mutates nothing. -/
theorem claim_C3_counterexample :
    violsCenter.length = 1 ∧
    correctedCenter.2.map (fun r => r.status) = ["applied"] ∧
    correctedCenter.1 = docOneRun ∧
    (validateDocument {} srcCenterNoProps correctedCenter.1).violations.map
      (fun v => v.rule_id) = [some "R1"] := by
  refine ⟨rfl, rfl, by decide, rfl⟩

/-- A resolved Python index is in bounds. -/
theorem pythonResolve_lt (n : Nat) (i : Int) (k : Nat)
    (h : pythonResolve n i = some k) : k < n := by
  rw [pythonResolve] at h
  split at h
  · split at h
    · cases h
      omega
    · exact absurd h (by simp)
  · next hneg =>
    split at h
    · cases h
      omega
    · exact absurd h (by simp)

/-- Eliminate a successful `_apply_formatting_violation`: the guard let the
index through, it resolved to `k`, and the result replaces paragraph `k`
with its corrected form. -/
theorem applyFormattingViolation_ok_elim {doc : Doc} {v : Violation}
    {act : CorrectionAction} {doc1 : Doc} {i : Int}
    (hloc : v.location.paragraph = some i)
    (hok : applyFormattingViolation doc v act = .ok doc1) :
    ∃ k, pythonResolve doc.paragraphs.length i = some k ∧
      ¬ ((doc.paragraphs.length : Int) ≤ i) ∧
      doc1 = setParagraph doc k
        (corrParagraph act ((doc.paragraphs.get? k).getD {})) := by
  simp only [applyFormattingViolation, hloc] at hok
  split at hok
  · exact absurd hok (by simp)
  · next hle =>
    split at hok
    · exact absurd hok (by simp)
    · next k hres =>
      cases hok
      exact ⟨k, hres, hle, rfl⟩

/-- `_validate_paragraph` reports nothing when the guard lets the index
through, the paragraph resolves, and every sub-check is clean. -/
theorem violationDataFor_no_flags (doc : Doc) (i : Int) (rule : Rule)
    (para : Paragraph)
    (hle : ¬ ((doc.paragraphs.length : Int) ≤ i))
    (hget : pythonGet doc.paragraphs i = some para)
    (hF : (alignFlag (rule.validation.getD {}) para ||
      boldFlag (rule.validation.getD {}) para ||
      fontNameFlag (rule.validation.getD {}) para ||
      fontSizeFlag (rule.validation.getD {}) para) = false) :
    violationDataFor doc i rule = some none := by
  rw [violationDataFor, if_neg hle, hget]
  simp [hF]

/-- C3 (amended): when the `apply_formatting` action's properties agree,
key for key, with the rule's validation map (same alignment string —
already lowercase, as rule files write them —, same bold flag, same font
name, and a font size that survives EMU quantization), and the resolved
paragraph has at least one run, then after a successful correction the
re-validation of that location reports no violation.  Without that
agreement the claim fails (see the counterexample). -/
theorem claim_C3_amended (doc doc1 : Doc) (v : Violation) (rule : Rule)
    (act : CorrectionAction) (i : Int)
    (hloc : v.location.paragraph = some i)
    (hok : applyFormattingViolation doc v act = .ok doc1)
    (hruns : ∀ p, pythonGet doc.paragraphs i = some p → p.runs ≠ [])
    (halign : ∀ s, (rule.validation.getD {}).alignment = some s →
      act.properties.alignment = some s ∧ strLower s = s)
    (hbold : ∀ b, (rule.validation.getD {}).bold = some b →
      act.properties.bold = some b)
    (hfname : ∀ fn, (rule.validation.getD {}).font_name = some fn →
      act.properties.font_name = some fn)
    (hfsize : ∀ fs, (rule.validation.getD {}).font_size = some fs →
      act.properties.font_size = some fs ∧ ptQuant fs = fs) :
    violationDataFor doc1 i rule = some none := by
  obtain ⟨k, hres, hle, hdoc1⟩ := applyFormattingViolation_ok_elim hloc hok
  have hk : k < doc.paragraphs.length := pythonResolve_lt _ _ _ hres
  obtain ⟨p0, hget0⟩ : ∃ p, doc.paragraphs.get? k = some p := by
    rw [List.get?_eq_getElem?]
    exact ⟨doc.paragraphs[k], List.getElem?_eq_getElem hk⟩
  have hpg : pythonGet doc.paragraphs i = some p0 := by
    rw [pythonGet, hres]
    exact hget0
  have hruns0 : p0.runs ≠ [] := hruns p0 hpg
  obtain ⟨r0, rs0, hr0⟩ : ∃ r rs, p0.runs = r :: rs := by
    cases hcase : p0.runs with
    | nil => exact absurd hcase hruns0
    | cons r rs => exact ⟨r, rs, rfl⟩
  -- shape of the corrected paragraph
  have hp2runs : (corrParagraph act p0).runs =
      updateRunFont act.properties r0 ::
        rs0.map (updateRunFont act.properties) := by
    rw [corrParagraph]
    cases act.properties.alignment <;> simp [hr0]
  have hp2align : (corrParagraph act p0).alignment =
      (match act.properties.alignment with
       | some s => some (parseAlignmentC s)
       | none => p0.alignment) := by
    rw [corrParagraph]
    cases act.properties.alignment <;> simp [hr0]
  -- the corrected document resolves the same location to the corrected
  -- paragraph
  have hdlen : doc1.paragraphs.length = doc.paragraphs.length := by
    rw [hdoc1]; simp [setParagraph]
  have hget1 : pythonGet doc1.paragraphs i = some (corrParagraph act p0) := by
    rw [pythonGet, hdlen, hres, hdoc1]
    show (doc.paragraphs.set k _).get? k = _
    rw [List.get?_eq_getElem?, List.getElem?_set_self]
    · rw [hget0]
      simp
    · exact hk
  -- every sub-check is clean on the corrected paragraph
  have hA : alignFlag (rule.validation.getD {}) (corrParagraph act p0) =
      false := by
    rw [alignFlag]
    cases hva : (rule.validation.getD {}).alignment with
    | none => rfl
    | some s =>
        obtain ⟨hpa, hsl⟩ := halign s hva
        rw [hp2align, hpa]
        show (alignmentStrToInt (strLower s) !=
          getAlignmentAsInt (some (parseAlignmentC s))) = false
        rw [hsl]
        have hpc : parseAlignmentC s = alignmentStrToInt s := rfl
        simp [getAlignmentAsInt, hpc]
  have hB : boldFlag (rule.validation.getD {}) (corrParagraph act p0) =
      false := by
    rw [boldFlag]
    cases hvb : (rule.validation.getD {}).bold with
    | none => rfl
    | some b =>
        have hpb := hbold b hvb
        rw [getParagraphBold, hp2runs]
        show (b != ((updateRunFont act.properties r0).font.bold).getD false)
          = false
        rw [updateRunFont]
        simp [hpb]
  have hN : fontNameFlag (rule.validation.getD {}) (corrParagraph act p0) =
      false := by
    rw [fontNameFlag, hp2runs]
    cases hvn : (rule.validation.getD {}).font_name with
    | none => rfl
    | some fn =>
        have hpn := hfname fn hvn
        show (match (updateRunFont act.properties r0).font.name with
          | none => false
          | some a => a != fn) = false
        rw [updateRunFont]
        simp [hpn]
  have hS : fontSizeFlag (rule.validation.getD {}) (corrParagraph act p0) =
      false := by
    rw [fontSizeFlag, hp2runs]
    cases hvs : (rule.validation.getD {}).font_size with
    | none => rfl
    | some fs =>
        obtain ⟨hps, hq⟩ := hfsize fs hvs
        show (match (updateRunFont act.properties r0).font.size with
          | none => false
          | some a => a != fs) = false
        rw [updateRunFont]
        simp [hps, hq]
  exact violationDataFor_no_flags doc1 i rule (corrParagraph act p0)
    (by rw [hdlen]; exact hle) hget1 (by rw [hA, hB, hN, hS]; rfl)

/-- C3 (witness): the amended idempotence at the concrete centering rule
whose action properties match its validation map. -/
theorem claim_C3_witness :
    violationDataFor docOneRunCentered 0 ruleCenterFull = some none :=
  claim_C3_amended docOneRun docOneRunCentered vCenter ruleCenterFull
    actCenter 0 rfl rfl
    (fun p hp => by
      rw [show pythonGet docOneRun.paragraphs 0 =
        some { alignment := none, runs := [{ text := "X" }] } from rfl]
        at hp
      cases hp
      decide)
    (fun s hs => by
      cases hs
      exact ⟨rfl, rfl⟩)
    (fun b hb => Option.noConfusion hb)
    (fun fn hfn => Option.noConfusion hfn)
    (fun fs hfs => Option.noConfusion hfs)

end StyleGuide
